import Mathlib

set_option autoImplicit false
set_option maxHeartbeats 1000000

/-!
Verification development for the cardman business-card generator.

The Python sources are shallowly embedded: dictionaries of contact fields
become the `CardData` structure, PIL images are abstracted by their pixel
dimensions, initial fill colour and composited overlays (every drawing call in
the sources preserves the dimensions), the filesystem and the image-save step
are an explicit oracle (`FS`), and exceptions are `Option`/`Except` values.
-/

/-- A contact record: the flat string-field dictionary (`card_data` in the
sources) built from a form submission or a CSV row.  `template`,
`color_scheme` and `font_family` are `Option String` so that an absent
dictionary key (Python `dict.get` falling back to its default) is
distinguished from a present one. -/
structure CardData where
  name : String := ""
  job_title : String := ""
  company : String := ""
  email : String := ""
  phone : String := ""
  website : String := ""
  address : String := ""
  notes : String := ""
  social_platform : String := ""
  social_handle : String := ""
  template : Option String := none
  color_scheme : Option String := none
  font_family : Option String := none
  include_qr : Bool := false
  logo_path : String := ""
  deriving Repr, DecidableEq

/-- Abstraction of a PIL raster image: pixel dimensions, the fill colour passed
to `Image.new`, and which overlays were composited onto it.  All drawing
primitives used by the sources (`draw.rectangle`, `draw.text`, `draw.line`,
`draw.ellipse`, `draw.polygon`, `putpixel`, pasting a smaller image, mode
conversion) preserve the dimensions, so a template is embedded by its size and
overlay effect. -/
structure Img where
  width : Nat
  height : Nat
  background : String
  hasLogo : Bool := false
  hasQr : Bool := false
  deriving Repr, DecidableEq

/-- Environment oracle: which paths exist on disk, which of them open as valid
images (`Image.open` succeeding), and whether saving an image to disk succeeds.
A `false` answer models the corresponding library call raising an exception. -/
structure FS where
  pathExists : String → Bool
  readableImage : String → Bool
  saveOk : Bool := true

/-! Character-list utilities used to reason about the vCard text payloads. -/

/-- Split a character list at every occurrence of `sep` (the separators are not
kept; `n` separators yield `n + 1` segments, as Python `str.split` with an
explicit separator does). -/
def splitOnChar (sep : Char) : List Char → List (List Char)
  | [] => [[]]
  | c :: cs =>
    match splitOnChar sep cs with
    | [] => [[]]
    | h :: t => if c = sep then [] :: h :: t else (c :: h) :: t

/-- Join segments with a single separator character between them. -/
def joinSep (sep : Char) : List (List Char) → List Char
  | [] => []
  | [l] => l
  | l :: l2 :: ls => l ++ sep :: joinSep sep (l2 :: ls)

/-- Everything after the first colon of a line (the value of a vCard content
line); the empty list if the line has no colon. -/
def afterColon : List Char → List Char
  | [] => []
  | c :: cs => if c = ':' then cs else afterColon cs

theorem splitOnChar_ne_nil (sep : Char) (l : List Char) : splitOnChar sep l ≠ [] := by
  induction l with
  | nil => simp [splitOnChar]
  | cons c cs ih =>
    simp only [splitOnChar]
    cases h : splitOnChar sep cs with
    | nil => simp
    | cons h t =>
      by_cases hc : c = sep <;> simp [hc]

theorem splitOnChar_of_not_mem {sep : Char} {l : List Char} (h : sep ∉ l) :
    splitOnChar sep l = [l] := by
  induction l with
  | nil => rfl
  | cons c cs ih =>
    have hc : c ≠ sep := fun hcc => h (hcc ▸ List.mem_cons_self c cs)
    have hcs : sep ∉ cs := fun hm => h (List.mem_cons_of_mem c hm)
    simp only [splitOnChar, ih hcs]
    simp [hc]

theorem splitOnChar_append_sep {sep : Char} {a : List Char} (b : List Char)
    (h : sep ∉ a) : splitOnChar sep (a ++ sep :: b) = a :: splitOnChar sep b := by
  induction a with
  | nil =>
    simp only [List.nil_append, splitOnChar]
    cases hb : splitOnChar sep b with
    | nil => exact absurd hb (splitOnChar_ne_nil sep b)
    | cons h t => simp
  | cons c cs ih =>
    have hc : c ≠ sep := fun hcc => h (hcc ▸ List.mem_cons_self c cs)
    have hcs : sep ∉ cs := fun hm => h (List.mem_cons_of_mem c hm)
    simp only [List.cons_append, splitOnChar, List.append_eq]
    rw [ih hcs]
    simp [hc]

theorem splitOnChar_joinSep {sep : Char} :
    ∀ {ls : List (List Char)}, (∀ l ∈ ls, sep ∉ l) → ls ≠ [] →
      splitOnChar sep (joinSep sep ls) = ls
  | [], _, hne => absurd rfl hne
  | [l], h, _ => by
    simpa [joinSep] using splitOnChar_of_not_mem (h l (by simp))
  | l :: l2 :: ls, h, _ => by
    have h1 : sep ∉ l := h l (by simp)
    have htail : ∀ x ∈ l2 :: ls, sep ∉ x := fun x hx => h x (List.mem_cons_of_mem l hx)
    have ih := splitOnChar_joinSep htail (by simp)
    simp only [joinSep]
    rw [splitOnChar_append_sep _ h1, ih]

/-! Python string operations, embedded at the character-list level. -/

/-- Python `str.lower()`. -/
def pyLower (s : String) : String := String.mk (s.data.map Char.toLower)

/-- Python `str.replace(old, new)` for a single-character pattern and
replacement (the only form the sources use: spaces and slashes to
underscores). -/
def pyReplaceChar (old repl : Char) (s : String) : String :=
  String.mk (s.data.map (fun c => if c = old then repl else c))

/-- Whether a file name matches a glob pattern of the shape `*.ext`: the name
ends with the extension. -/
def globEndsWith (s pat : String) : Bool := pat.data.isSuffixOf s.data

/-- Python `str.split()` with no argument: split on runs of whitespace,
discarding empty pieces.  `acc` holds the current (reversed) piece. -/
def pySplitWsAux (acc : List Char) : List Char → List (List Char)
  | [] => if acc.isEmpty then [] else [acc.reverse]
  | c :: cs =>
    if c.isWhitespace then
      if acc.isEmpty then pySplitWsAux [] cs
      else acc.reverse :: pySplitWsAux [] cs
    else pySplitWsAux (c :: acc) cs

/-- Python `str.split()` with no argument. -/
def pySplitWs (s : String) : List String :=
  (pySplitWsAux [] s.data).map String.mk

/-- Python `sep.join(parts)`. -/
def pyJoin (sep : String) : List String → String
  | [] => ""
  | [s] => s
  | s :: s2 :: rest => s ++ sep ++ pyJoin sep (s2 :: rest)

/-- The apostrophe character, written by code point to keep source text plain. -/
def pyQuote : Char := Char.ofNat 39

/-- Python `repr` of a string, as produced for list elements by `str(list)`;
exact for strings without quotes, backslashes or control characters, which is
all the proofs rely on (only its newline-freeness is ever used). -/
def pyStrRepr (s : String) : String := String.mk (pyQuote :: s.data ++ [pyQuote])

/-- Python `str` of a list of strings: `[` + comma-separated `repr`s + `]`. -/
def pyListRepr (l : List String) : String :=
  "[" ++ pyJoin ", " (l.map pyStrRepr) ++ "]"

/-- Python `l[-1:] + l[:-1]`: the last element (as a singleton, if any)
followed by all but the last. -/
def pyRotateLast {α : Type} (l : List α) : List α :=
  l.drop (l.length - 1) ++ l.take (l.length - 1)

/-- Python `f"{n:03d}"`: decimal, left-padded with zeros to width 3. -/
def pad3 (n : Nat) : String :=
  if n < 10 then "00" ++ toString n
  else if n < 100 then "0" ++ toString n
  else toString n

/-- Python `row.get(key, default)` on a CSV `DictReader` row, modelled as an
association list from column name to cell value. -/
def rowGet (row : List (String × String)) (key dflt : String) : String :=
  (row.lookup key).getD dflt

namespace CardGenerator

/-- The instance attributes set by CardGenerator.__init__. -/
structure Gen where
  card_width : Nat := 1050
  card_height : Nat := 600
  dpi : Nat := 300
  margin : Nat := 45
  safe_margin : Nat := 30
  deriving Repr, DecidableEq

/-- A freshly constructed CardGenerator(). -/
def init : Gen := {}

/-- The thirteen drawing routines registered in self.templates. -/
inductive TemplateId where
  | modern | classic | creative | elegant | tech | corporate | artistic
  | minimal | bold | vintage | geometric | gradient | executive
  deriving Repr, DecidableEq

/-- One palette of self.color_schemes: semantic slot name to hex colour. -/
structure Scheme where
  primary : String
  secondary : String
  text : String
  accent : String
  light : String
  dark : String
  deriving Repr, DecidableEq

def corporate_blue : Scheme :=
  { primary := "#1e3a8a", secondary := "#f1f5f9", text := "#0f172a",
    accent := "#3b82f6", light := "#e2e8f0", dark := "#334155" }

def executive_navy : Scheme :=
  { primary := "#1e293b", secondary := "#f8fafc", text := "#0f172a",
    accent := "#64748b", light := "#e2e8f0", dark := "#475569" }

def professional_gray : Scheme :=
  { primary := "#374151", secondary := "#f9fafb", text := "#111827",
    accent := "#6b7280", light := "#e5e7eb", dark := "#4b5563" }

def modern_black : Scheme :=
  { primary := "#000000", secondary := "#ffffff", text := "#000000",
    accent := "#404040", light := "#f5f5f5", dark := "#262626" }

def elegant_burgundy : Scheme :=
  { primary := "#7c2d12", secondary := "#fef7f0", text := "#1c1917",
    accent := "#dc2626", light := "#fed7d7", dark := "#991b1b" }

def sophisticated_green : Scheme :=
  { primary := "#14532d", secondary := "#f0fdf4", text := "#052e16",
    accent := "#16a34a", light := "#dcfce7", dark := "#166534" }

def premium_gold : Scheme :=
  { primary := "#92400e", secondary := "#fffbeb", text := "#451a03",
    accent := "#d97706", light := "#fef3c7", dark := "#a16207" }

def royal_purple : Scheme :=
  { primary := "#581c87", secondary := "#faf5ff", text := "#2e1065",
    accent := "#8b5cf6", light := "#e9d5ff", dark := "#6d28d9" }

/-- The palette registry self.color_schemes. -/
def color_schemes : List (String × Scheme) :=
  [("corporate_blue", corporate_blue), ("executive_navy", executive_navy),
   ("professional_gray", professional_gray), ("modern_black", modern_black),
   ("elegant_burgundy", elegant_burgundy), ("sophisticated_green", sophisticated_green),
   ("premium_gold", premium_gold), ("royal_purple", royal_purple)]

/-- The template registry self.templates. -/
def templates : List (String × TemplateId) :=
  [("modern", .modern), ("classic", .classic), ("creative", .creative),
   ("elegant", .elegant), ("tech", .tech), ("corporate", .corporate),
   ("artistic", .artistic), ("minimal", .minimal), ("bold", .bold),
   ("vintage", .vintage), ("geometric", .geometric), ("gradient", .gradient),
   ("executive", .executive)]

/-- modern_template: `Image.new('RGB', (card_width, card_height), 'white')`
followed by size-preserving drawing calls. -/
def modern_template (g : Gen) (_d : CardData) (_c : Scheme) : Img :=
  { width := g.card_width, height := g.card_height, background := "white" }

/-- classic_template: a white canvas of the configured dimensions with borders
and text drawn onto it. -/
def classic_template (g : Gen) (_d : CardData) (_c : Scheme) : Img :=
  { width := g.card_width, height := g.card_height, background := "white" }

/-- creative_template: a white canvas with geometric shapes and text. -/
def creative_template (g : Gen) (_d : CardData) (_c : Scheme) : Img :=
  { width := g.card_width, height := g.card_height, background := "white" }

/-- elegant_template: canvas filled with the palette's secondary colour. -/
def elegant_template (g : Gen) (_d : CardData) (c : Scheme) : Img :=
  { width := g.card_width, height := g.card_height, background := c.secondary }

/-- tech_template: dark base colour '#0a0a0a' with grid and panel drawing. -/
def tech_template (g : Gen) (_d : CardData) (_c : Scheme) : Img :=
  { width := g.card_width, height := g.card_height, background := "#0a0a0a" }

/-- corporate_template delegates to classic_template in the source. -/
def corporate_template (g : Gen) (d : CardData) (c : Scheme) : Img :=
  classic_template g d c

/-- artistic_template delegates to creative_template in the source. -/
def artistic_template (g : Gen) (d : CardData) (c : Scheme) : Img :=
  creative_template g d c

/-- minimal_template: white canvas with minimal drawing. -/
def minimal_template (g : Gen) (_d : CardData) (_c : Scheme) : Img :=
  { width := g.card_width, height := g.card_height, background := "white" }

/-- bold_template: canvas filled with the palette's primary colour. -/
def bold_template (g : Gen) (_d : CardData) (c : Scheme) : Img :=
  { width := g.card_width, height := g.card_height, background := c.primary }

/-- vintage_template: beige '#f5f5dc' canvas with vintage borders. -/
def vintage_template (g : Gen) (_d : CardData) (_c : Scheme) : Img :=
  { width := g.card_width, height := g.card_height, background := "#f5f5dc" }

/-- geometric_template: white canvas with polygon decorations. -/
def geometric_template (g : Gen) (_d : CardData) (_c : Scheme) : Img :=
  { width := g.card_width, height := g.card_height, background := "white" }

/-- gradient_template: canvas filled with the palette's primary colour, then
scanline drawing simulating a gradient. -/
def gradient_template (g : Gen) (_d : CardData) (c : Scheme) : Img :=
  { width := g.card_width, height := g.card_height, background := c.primary }

/-- executive_template: white canvas with header block and text. -/
def executive_template (g : Gen) (_d : CardData) (_c : Scheme) : Img :=
  { width := g.card_width, height := g.card_height, background := "white" }

/-- Dispatch through the template registry to the drawing routine. -/
def renderTemplate (g : Gen) (t : TemplateId) (d : CardData) (c : Scheme) : Img :=
  match t with
  | .modern => modern_template g d c
  | .classic => classic_template g d c
  | .creative => creative_template g d c
  | .elegant => elegant_template g d c
  | .tech => tech_template g d c
  | .corporate => corporate_template g d c
  | .artistic => artistic_template g d c
  | .minimal => minimal_template g d c
  | .bold => bold_template g d c
  | .vintage => vintage_template g d c
  | .geometric => geometric_template g d c
  | .gradient => gradient_template g d c
  | .executive => executive_template g d c

/-- generate_card line 764: `template_name = card_data.get('template', 'modern')`
then `self.templates.get(template_name, self.modern_template)`. -/
def resolveTemplateId (d : CardData) : TemplateId :=
  (templates.lookup (d.template.getD "modern")).getD TemplateId.modern

/-- generate_card line 765: `color_scheme = card_data.get('color_scheme', 'blue')`
then `self.color_schemes.get(color_scheme, self.color_schemes['corporate_blue'])`. -/
def resolveScheme (d : CardData) : Scheme :=
  (color_schemes.lookup (d.color_scheme.getD "blue")).getD corporate_blue

/-- CardGenerator.generate_card: resolve palette and template with fallback,
render the base card, overlay the logo when a path is supplied and the file
exists (the whole logo block is inside try/except, so an unreadable logo only
skips the overlay), then overlay the QR code when include_qr is truthy (also
inside try/except). -/
def generate_card (g : Gen) (fs : FS) (d : CardData) : Img :=
  let base := renderTemplate g (resolveTemplateId d) d (resolveScheme d)
  let withLogo :=
    if d.logo_path ≠ "" ∧ fs.pathExists d.logo_path then
      if fs.readableImage d.logo_path then { base with hasLogo := true } else base
    else base
  if d.include_qr then { withLogo with hasQr := true } else withLogo

/-- The vCard f-string built by CardGenerator.generate_qr_code. -/
def generate_qr_code_vcard (d : CardData) : String :=
  "BEGIN:VCARD\nVERSION:3.0\nFN:" ++ d.name ++ "\nORG:" ++ d.company ++
  "\nTITLE:" ++ d.job_title ++ "\nEMAIL:" ++ d.email ++ "\nTEL:" ++ d.phone ++
  "\nURL:" ++ d.website ++ "\nADR:;;" ++ d.address ++ ";;;;\nEND:VCARD"

end CardGenerator

namespace AdvancedCardGenerator

/-- The instance attributes set by AdvancedCardGenerator.__init__. -/
structure Gen where
  card_width : Nat := 1050
  card_height : Nat := 600
  dpi : Nat := 300
  bleed : Nat := 9
  safe_zone : Nat := 45
  deriving Repr, DecidableEq

/-- A freshly constructed AdvancedCardGenerator(). -/
def init : Gen := {}

/-- The fifteen template keys registered in self.templates. -/
inductive TemplateId where
  | executive_premium | modern_gradient | minimalist_pro | creative_artistic
  | luxury_foil | tech_neon | vintage_letterpress | geometric_modern
  | photography_showcase | corporate_elite | startup_dynamic | healthcare_clean
  | legal_traditional | real_estate_luxury | restaurant_elegant
  deriving Repr, DecidableEq

/-- One palette of self.color_schemes (eight semantic slots). -/
structure Scheme where
  primary : String
  secondary : String
  accent : String
  text : String
  light : String
  dark : String
  metallic : String
  highlight : String
  deriving Repr, DecidableEq

def executive_navy : Scheme :=
  { primary := "#1a365d", secondary := "#f7fafc", accent := "#3182ce",
    text := "#2d3748", light := "#e2e8f0", dark := "#1a202c",
    metallic := "#c6a96b", highlight := "#4299e1" }

def luxury_gold : Scheme :=
  { primary := "#744210", secondary := "#fffdf7", accent := "#d69e2e",
    text := "#1a202c", light := "#faf5e4", dark := "#744210",
    metallic := "#ecc94b", highlight := "#f6e05e" }

def tech_cyan : Scheme :=
  { primary := "#065f46", secondary := "#f0fdfa", accent := "#0d9488",
    text := "#1f2937", light := "#ccfbf1", dark := "#065f46",
    metallic := "#5eead4", highlight := "#2dd4bf" }

def creative_purple : Scheme :=
  { primary := "#553c9a", secondary := "#faf5ff", accent := "#805ad5",
    text := "#2d3748", light := "#e9d8fd", dark := "#44337a",
    metallic := "#b794f6", highlight := "#9f7aea" }

def medical_blue : Scheme :=
  { primary := "#2c5282", secondary := "#f7fafc", accent := "#3182ce",
    text := "#2d3748", light := "#bee3f8", dark := "#2a4365",
    metallic := "#63b3ed", highlight := "#4299e1" }

def finance_green : Scheme :=
  { primary := "#22543d", secondary := "#f0fff4", accent := "#38a169",
    text := "#1a202c", light := "#c6f6d5", dark := "#1a202c",
    metallic := "#68d391", highlight := "#48bb78" }

def law_burgundy : Scheme :=
  { primary := "#742a2a", secondary := "#fffafa", accent := "#c53030",
    text := "#1a202c", light := "#fed7d7", dark := "#63171b",
    metallic := "#fc8181", highlight := "#f56565" }

def startup_orange : Scheme :=
  { primary := "#c05621", secondary := "#fffaf0", accent := "#dd6b20",
    text := "#1a202c", light := "#fbd38d", dark := "#9c4221",
    metallic := "#f6ad55", highlight := "#ed8936" }

/-- The palette registry self.color_schemes. -/
def color_schemes : List (String × Scheme) :=
  [("executive_navy", executive_navy), ("luxury_gold", luxury_gold),
   ("tech_cyan", tech_cyan), ("creative_purple", creative_purple),
   ("medical_blue", medical_blue), ("finance_green", finance_green),
   ("law_burgundy", law_burgundy), ("startup_orange", startup_orange)]

/-- The template registry self.templates. -/
def templates : List (String × TemplateId) :=
  [("executive_premium", .executive_premium), ("modern_gradient", .modern_gradient),
   ("minimalist_pro", .minimalist_pro), ("creative_artistic", .creative_artistic),
   ("luxury_foil", .luxury_foil), ("tech_neon", .tech_neon),
   ("vintage_letterpress", .vintage_letterpress), ("geometric_modern", .geometric_modern),
   ("photography_showcase", .photography_showcase), ("corporate_elite", .corporate_elite),
   ("startup_dynamic", .startup_dynamic), ("healthcare_clean", .healthcare_clean),
   ("legal_traditional", .legal_traditional), ("real_estate_luxury", .real_estate_luxury),
   ("restaurant_elegant", .restaurant_elegant)]

/-- executive_premium_template: RGBA canvas filled with the palette's secondary
colour, size-preserving drawing, an embedded QR overlay when
`card_data.get('include_qr', False)` is truthy, final `.convert('RGB')`. -/
def executive_premium_template (g : Gen) (d : CardData) (c : Scheme) : Img :=
  { width := g.card_width, height := g.card_height, background := c.secondary,
    hasQr := d.include_qr }

/-- modern_gradient_template: white canvas overwritten per-pixel with a
diagonal gradient; it never embeds a QR code. -/
def modern_gradient_template (g : Gen) (_d : CardData) (_c : Scheme) : Img :=
  { width := g.card_width, height := g.card_height, background := "white" }

/-- minimalist_pro_template: white canvas, minimal drawing, QR overlay when
`card_data.get('include_qr', False)` is truthy. -/
def minimalist_pro_template (g : Gen) (d : CardData) (_c : Scheme) : Img :=
  { width := g.card_width, height := g.card_height, background := "white",
    hasQr := d.include_qr }

/-- Modelled from the spec: the drawing routines for the other twelve
registered template keys (`creative_artistic`, `luxury_foil`, `tech_neon`,
`vintage_letterpress`, `geometric_modern`, `photography_showcase`,
`corporate_elite`, `startup_dynamic`, `healthcare_clean`, `legal_traditional`,
`real_estate_luxury`, `restaurant_elegant`) are referenced by the template
registry but their method bodies are not among the sources.  Per the spec, a
template is a named pure function from (ContactRecord, PaletteDefinition) to a
raster image of fixed dimensions, with the QR overlay composited when the
include-QR flag is set, so each is modelled as producing an image of the
configured canvas dimensions. -/
def spec_modelled_template (g : Gen) (d : CardData) (c : Scheme) : Img :=
  { width := g.card_width, height := g.card_height, background := c.secondary,
    hasQr := d.include_qr }

/-- Dispatch through the template registry to the drawing routine. -/
def renderTemplate (g : Gen) (t : TemplateId) (d : CardData) (c : Scheme) : Img :=
  match t with
  | .executive_premium => executive_premium_template g d c
  | .modern_gradient => modern_gradient_template g d c
  | .minimalist_pro => minimalist_pro_template g d c
  | _ => spec_modelled_template g d c

/-- generate_card line 402: `card_data.get('template', 'executive_premium')`
then `self.templates.get(template_name, self.executive_premium_template)`. -/
def resolveTemplateId (d : CardData) : TemplateId :=
  (templates.lookup (d.template.getD "executive_premium")).getD TemplateId.executive_premium

/-- generate_card line 403: `card_data.get('color_scheme', 'executive_navy')`
then `self.color_schemes.get(color_scheme, self.color_schemes['executive_navy'])`. -/
def resolveScheme (d : CardData) : Scheme :=
  (color_schemes.lookup (d.color_scheme.getD "executive_navy")).getD executive_navy

/-- AdvancedCardGenerator.generate_card: resolve palette and template with
fallback, render the base card, then overlay the logo when a path is supplied
and the file exists (the logo block is inside try/except, so a failing load
only skips the overlay).  The QR code is embedded by the individual templates,
not here. -/
def generate_card (g : Gen) (fs : FS) (d : CardData) : Img :=
  let base := renderTemplate g (resolveTemplateId d) d (resolveScheme d)
  if d.logo_path ≠ "" ∧ fs.pathExists d.logo_path then
    if fs.readableImage d.logo_path then { base with hasLogo := true } else base
  else base

/-- The enhanced vCard f-string built by generate_advanced_qr; the N line
interpolates the Python list `name.split()[-1:] + name.split()[:-1]`. -/
def generate_advanced_qr_vcard (d : CardData) : String :=
  "BEGIN:VCARD\nVERSION:3.0\nFN:" ++ d.name ++
  "\nN:" ++ pyListRepr (pyRotateLast (pySplitWs d.name)) ++
  "\nORG:" ++ d.company ++
  "\nTITLE:" ++ d.job_title ++
  "\nEMAIL;TYPE=WORK:" ++ d.email ++
  "\nTEL;TYPE=WORK,VOICE:" ++ d.phone ++
  "\nURL:" ++ d.website ++
  "\nADR;TYPE=WORK:;;" ++ d.address ++ ";;;;" ++
  "\nNOTE:" ++ d.notes ++
  "\nEND:VCARD"

/-- AdvancedCardGenerator.export_png_hd: double card_width and card_height,
generate the card at 2x resolution, save it (a failing save is an exception
that propagates, modelled by `fs.saveOk = false` giving `none`), and restore
the original dimensions in the `finally` block.  Returns the saved image (or
`none` for a raised exception) together with the generator state after the
call. -/
def export_png_hd (g : Gen) (fs : FS) (d : CardData) : Option Img × Gen :=
  let doubled : Gen :=
    { g with card_width := g.card_width * 2, card_height := g.card_height * 2 }
  let card_img := generate_card doubled fs d
  let result := if fs.saveOk then some card_img else none
  (result, { doubled with card_width := g.card_width, card_height := g.card_height })

end AdvancedCardGenerator

/-! PDF export geometry.  Lengths are in PostScript points (ℚ); reportlab's
`inch` is 72 points and `letter` is (612, 792). -/

def inch : ℚ := 72

/-- reportlab letter page size in points. -/
def letter_size : ℚ × ℚ := (612, 792)

/-- Geometry of a produced one-page PDF: page size, flowable margins, and the
size and position of the placed card image. -/
structure PdfDoc where
  page_width : ℚ
  page_height : ℚ
  left_margin : ℚ
  right_margin : ℚ
  top_margin : ℚ
  bottom_margin : ℚ
  image_x : ℚ
  image_y : ℚ
  image_width : ℚ
  image_height : ℚ
  deriving Repr, DecidableEq

namespace CardGenerator

/-- CardGenerator.export_pdf: a reportlab canvas with `pagesize=letter`; the
card raster is converted to points at 300 DPI (`card_width * 72 / 300`) and
drawn centred on the page. -/
def export_pdf_doc (g : Gen) : PdfDoc :=
  let card_width_pts : ℚ := (g.card_width : ℚ) * 72 / 300
  let card_height_pts : ℚ := (g.card_height : ℚ) * 72 / 300
  { page_width := letter_size.1, page_height := letter_size.2,
    left_margin := 0, right_margin := 0, top_margin := 0, bottom_margin := 0,
    image_x := (letter_size.1 - card_width_pts) / 2,
    image_y := (letter_size.2 - card_height_pts) / 2,
    image_width := card_width_pts, image_height := card_height_pts }

/-- CardGenerator.export_pdf_print delegates to export_pdf in the source. -/
def export_pdf_print_doc (g : Gen) : PdfDoc := export_pdf_doc g

end CardGenerator

namespace AdvancedCardGenerator

/-- AdvancedCardGenerator.export_premium_pdf: print_ready gives a 4in x 2.5in
page with 0.25in margins, otherwise a 3.5in x 2in page with zero margins; in
both cases the card raster is placed as a 3.5in x 2in reportlab Image. -/
def export_premium_pdf_doc (print_ready : Bool) : PdfDoc :=
  if print_ready then
    { page_width := 4 * inch, page_height := (5 / 2) * inch,
      left_margin := (1 / 4) * inch, right_margin := (1 / 4) * inch,
      top_margin := (1 / 4) * inch, bottom_margin := (1 / 4) * inch,
      image_x := (1 / 4) * inch, image_y := (1 / 4) * inch,
      image_width := (7 / 2) * inch, image_height := 2 * inch }
  else
    { page_width := (7 / 2) * inch, page_height := 2 * inch,
      left_margin := 0, right_margin := 0, top_margin := 0, bottom_margin := 0,
      image_x := 0, image_y := 0,
      image_width := (7 / 2) * inch, image_height := 2 * inch }

end AdvancedCardGenerator

/-! Batch processing.  A CSV `DictReader` row is an association list from
column name to cell value.  The per-row renderer+exporter call (export_png /
export_pdf / export_png_hd / export_premium_pdf: the code inside the per-row
`try`) is abstracted by an oracle `Nat → CardData → Option String` giving the
produced file path, `none` meaning the call raised an exception. -/

/-- A CSV data row. -/
def Row : Type := List (String × String)

/-- The enumerate-and-append skeleton shared by both batch loops: for each row
(with its index) the step either yields a (zip entry name, file path) pair that
is appended to the archive, or nothing (row skipped). -/
def zip_loop (step : Nat → Row → Option (String × String)) :
    Nat → List Row → List (String × String)
  | _, [] => []
  | i, row :: rest =>
    match step i row with
    | some e => e :: zip_loop step (i + 1) rest
    | none => zip_loop step (i + 1) rest

namespace CardGenerator

/-- The card_data dictionary CardGenerator.batch_export builds from a CSV row
(lines 1018-1032), including the include_qr parse
`row.get('include_qr', '').lower() in ['true', '1', 'yes']`. -/
def batch_row_card (row : Row) : CardData :=
  { name := rowGet row "name" "",
    job_title := rowGet row "job_title" "",
    company := rowGet row "company" "",
    email := rowGet row "email" "",
    phone := rowGet row "phone" "",
    website := rowGet row "website" "",
    address := rowGet row "address" "",
    social_platform := rowGet row "social_platform" "",
    social_handle := rowGet row "social_handle" "",
    template := some (rowGet row "template" "modern"),
    color_scheme := some (rowGet row "color_scheme" "blue"),
    font_family := some (rowGet row "font_family" "inter"),
    include_qr := (["true", "1", "yes"] : List String).contains
      (pyLower (rowGet row "include_qr" "")) }

/-- The archive entry name `f"card_{i+1}_{name.replace(' ', '_')}.{ext}"`. -/
def zip_arcname (ext : String) (i : Nat) (cd : CardData) : String :=
  "card_" ++ toString (i + 1) ++ "_" ++ pyReplaceChar ' ' '_' cd.name ++ "." ++ ext

/-- One iteration of the batch_export loop body: png and pdf rows call the
exporter (whose exception is caught, skipping the row); any other format hits
the `else: continue` branch and adds nothing. -/
def batch_step (export1 : Nat → CardData → Option String) (fmt : String)
    (i : Nat) (row : Row) : Option (String × String) :=
  let cd := batch_row_card row
  if fmt = "png" then (export1 i cd).map (fun path => (zip_arcname "png" i cd, path))
  else if fmt = "pdf" then (export1 i cd).map (fun path => (zip_arcname "pdf" i cd, path))
  else none

/-- CardGenerator.batch_export: creates the zip archive (named from the
timestamp), loops over the CSV rows appending per-row artifacts, and always
returns the archive path. -/
def batch_export (export1 : Nat → CardData → Option String) (ts : String)
    (rows : List Row) (fmt : String) : String × List (String × String) :=
  ("exports/business_cards_" ++ ts ++ ".zip", zip_loop (batch_step export1 fmt) 0 rows)

end CardGenerator

namespace AdvancedCardGenerator

/-- The card_data dictionary batch_export_premium builds from a CSV row
(lines 531-542), including the include_qr parse
`row.get('include_qr', '').lower() == 'true'`. -/
def premium_row_card (row : Row) : CardData :=
  { name := rowGet row "name" "",
    job_title := rowGet row "job_title" "",
    company := rowGet row "company" "",
    email := rowGet row "email" "",
    phone := rowGet row "phone" "",
    website := rowGet row "website" "",
    address := rowGet row "address" "",
    template := some (rowGet row "template" "executive_premium"),
    color_scheme := some (rowGet row "color_scheme" "executive_navy"),
    include_qr := pyLower (rowGet row "include_qr" "") = "true" }

/-- The archive entry name
`f"{name.replace(' ', '_').replace('/', '_')}_{i+1:03d}.{export_format}"`. -/
def premium_arcname (fmt : String) (i : Nat) (cd : CardData) : String :=
  pyReplaceChar '/' '_' (pyReplaceChar ' ' '_' cd.name) ++ "_" ++ pad3 (i + 1) ++ "." ++ fmt

/-- One iteration of the batch_export_premium loop body (the whole body is
inside try/except): pdf rows call export_premium_pdf, every other format calls
export_png_hd. -/
def premium_step (export1 : Nat → CardData → Option String) (fmt : String)
    (i : Nat) (row : Row) : Option (String × String) :=
  let cd := premium_row_card row
  (export1 i cd).map (fun path => (premium_arcname fmt i cd, path))

/-- AdvancedCardGenerator.batch_export_premium: creates the zip archive (named
from a fresh uuid fragment), loops over the CSV rows appending per-row
artifacts, and always returns the archive path. -/
def batch_export_premium (export1 : Nat → CardData → Option String) (uid : String)
    (rows : List Row) (fmt : String) : String × List (String × String) :=
  ("exports/premium_business_cards_" ++ uid ++ ".zip",
   zip_loop (premium_step export1 fmt) 0 rows)

end AdvancedCardGenerator

/-! The two /batch_process route handlers (after the file-upload checks, with
the CSV already parsed into a header and data rows). -/

/-- A parsed CSV file: `header` is `DictReader.fieldnames`, each row maps the
header's column names to that row's cells. -/
structure CsvFile where
  header : List String
  rows : List Row

/-- new_routes.py line 249: the required batch columns. -/
def required_columns : List String := ["name", "job_title", "company", "email"]

/-- new_routes.py line 250: the required columns absent from the header. -/
def missing_columns (header : List String) : List String :=
  required_columns.filter (fun c => !(header.contains c))

/-- new_routes.py batch_process: validate the header's required columns,
rejecting the whole batch with a flashed error naming the missing columns
before any row is touched and before any file is produced; otherwise run
batch_export_premium and return its archive. -/
def new_routes_batch_process (export1 : Nat → CardData → Option String)
    (uid : String) (csv : CsvFile) (fmt : String) :
    Except String (String × List (String × String)) :=
  let missing := missing_columns csv.header
  if missing.isEmpty then
    .ok (AdvancedCardGenerator.batch_export_premium export1 uid csv.rows fmt)
  else
    .error ("CSV missing required columns: " ++ pyJoin ", " missing)

/-- routes.py batch_process: performs no header validation at all; it directly
runs CardGenerator.batch_export on the parsed rows and returns the archive. -/
def routes_batch_process (export1 : Nat → CardData → Option String)
    (ts : String) (csv : CsvFile) (fmt : String) :
    Except String (String × List (String × String)) :=
  .ok (CardGenerator.batch_export export1 ts csv.rows fmt)

/-! The cleanup sweeper (cleanup_task.py).  File modification times and the
current clock are modelled as integers (the float-valued comparisons of the
source are order-isomorphic on these). -/

namespace FileCleanupManager

/-- A file on disk: its name and modification time. -/
structure FileEntry where
  name : String
  mtime : Int
  deriving Repr, DecidableEq

/-- Contents of the two swept directories. -/
structure DirState where
  export_files : List FileEntry
  preview_files : List FileEntry
  deriving Repr, DecidableEq

/-- The glob patterns swept in the export folder. -/
def export_patterns : List String := [".png", ".pdf", ".html", ".zip"]

/-- The glob patterns swept in the preview folder. -/
def preview_patterns : List String := [".png", ".jpg", ".jpeg"]

/-- Whether a file name matches one of the `*.ext` glob patterns. -/
def matchesAny (pats : List String) (name : String) : Bool :=
  pats.any (fun p => globEndsWith name p)

/-- FileCleanupManager._cleanup_old_files, one sweep: in each of the two
directories, delete every file that matches one of that directory's glob
patterns and whose modification time is before `now - cleanup_interval`
(deletion errors are caught per file; deletion itself is assumed to
succeed here). -/
def cleanup_old_files (cleanup_interval now : Int) (s : DirState) : DirState :=
  let cutoff := now - cleanup_interval
  { export_files := s.export_files.filter
      (fun f => !(matchesAny export_patterns f.name && decide (f.mtime < cutoff))),
    preview_files := s.preview_files.filter
      (fun f => !(matchesAny preview_patterns f.name && decide (f.mtime < cutoff))) }

end FileCleanupManager

/-! Analysis of the vCard payloads as line-structured text. -/

/-- The lines of a text payload (split at every newline). -/
def vcardLines (s : String) : List (List Char) := splitOnChar '\n' s.data

/-- The property name of a vCard content line: everything before the first
colon or parameter separator. -/
def vcardProp (l : List Char) : List Char :=
  l.takeWhile (fun c => !(c == ':') && !(c == ';'))

/-- The value of a vCard content line: everything after the first colon. -/
def vcardValue (l : List Char) : List Char := afterColon l

/-- The payload has a content line with the given property name and value. -/
def vcardHasEntry (lines : List (List Char)) (p v : String) : Prop :=
  ∃ l ∈ lines, vcardProp l = p.data ∧ vcardValue l = v.data

theorem no_nl_append {s t : String} (hs : '\n' ∉ s.data) (ht : '\n' ∉ t.data) :
    '\n' ∉ (s ++ t).data := by
  rw [String.data_append]
  simp only [List.mem_append]
  rintro (h | h)
  · exact hs h
  · exact ht h

theorem pySplitWsAux_no_ws :
    ∀ (cs acc : List Char), (∀ a ∈ acc, a.isWhitespace = false) →
      ∀ p ∈ pySplitWsAux acc cs, ∀ c ∈ p, c.isWhitespace = false
  | [], acc, hacc, p, hp, c, hc => by
    by_cases he : acc.isEmpty <;> simp [pySplitWsAux, he] at hp
    subst hp
    exact hacc c (List.mem_reverse.mp hc)
  | x :: cs, acc, hacc, p, hp, c, hc => by
    simp only [pySplitWsAux] at hp
    by_cases hx : x.isWhitespace
    · rw [if_pos hx] at hp
      by_cases he : acc.isEmpty
      · rw [if_pos he] at hp
        exact pySplitWsAux_no_ws cs [] (by simp) p hp c hc
      · rw [if_neg he] at hp
        rcases List.mem_cons.mp hp with h | h
        · subst h
          exact hacc c (List.mem_reverse.mp hc)
        · exact pySplitWsAux_no_ws cs [] (by simp) p h c hc
    · rw [if_neg hx] at hp
      refine pySplitWsAux_no_ws cs (x :: acc) ?_ p hp c hc
      intro a ha
      rcases List.mem_cons.mp ha with h | h
      · subst h; exact Bool.eq_false_iff.mpr hx
      · exact hacc a h

theorem pySplitWs_no_nl (s : String) :
    ∀ p ∈ pySplitWs s, '\n' ∉ p.data := by
  intro p hp hmem
  simp only [pySplitWs, List.mem_map] at hp
  obtain ⟨l, hl, rfl⟩ := hp
  have := pySplitWsAux_no_ws s.data [] (by simp) l hl '\n' hmem
  simp at this

theorem pyRotateLast_subset {α : Type} (l : List α) :
    ∀ p ∈ pyRotateLast l, p ∈ l := by
  intro p hp
  rcases List.mem_append.mp hp with h | h
  · exact List.mem_of_mem_drop h
  · exact List.mem_of_mem_take h

theorem pyStrRepr_no_nl {s : String} (hs : '\n' ∉ s.data) :
    '\n' ∉ (pyStrRepr s).data := by
  intro h
  rcases List.mem_cons.mp h with h1 | h1
  · exact absurd h1 (by decide)
  · rcases List.mem_append.mp h1 with h2 | h2
    · exact hs h2
    · rcases List.mem_singleton.mp h2 with h3
      exact absurd h3 (by decide)

theorem pyJoin_comma_no_nl :
    ∀ (parts : List String), (∀ p ∈ parts, '\n' ∉ p.data) →
      '\n' ∉ (pyJoin ", " parts).data
  | [], _ => by decide
  | [s], h => h s (by simp)
  | s :: s2 :: rest, h => by
    refine no_nl_append (no_nl_append (h s (by simp)) (by decide)) ?_
    exact pyJoin_comma_no_nl (s2 :: rest) (fun p hp => h p (List.mem_cons_of_mem s hp))

theorem pyListRepr_no_nl {l : List String} (h : ∀ p ∈ l, '\n' ∉ p.data) :
    '\n' ∉ (pyListRepr l).data := by
  refine no_nl_append (no_nl_append (by decide) ?_) (by decide)
  refine pyJoin_comma_no_nl _ ?_
  intro p hp
  rcases List.mem_map.mp hp with ⟨q, hq, rfl⟩
  exact pyStrRepr_no_nl (h q hq)

namespace CardGenerator

/-- The line structure of the f-string built by generate_qr_code. -/
def vcard_line_list (d : CardData) : List (List Char) :=
  ["BEGIN:VCARD".data, "VERSION:3.0".data,
   ("FN:" ++ d.name).data, ("ORG:" ++ d.company).data,
   ("TITLE:" ++ d.job_title).data, ("EMAIL:" ++ d.email).data,
   ("TEL:" ++ d.phone).data, ("URL:" ++ d.website).data,
   ("ADR:;;" ++ d.address ++ ";;;;").data, "END:VCARD".data]

theorem vcard_data_eq (d : CardData) :
    (generate_qr_code_vcard d).data = joinSep '\n' (vcard_line_list d) := by
  have e1 : ("BEGIN:VCARD\nVERSION:3.0\nFN:" : String).data
      = "BEGIN:VCARD".data ++ '\n' :: ("VERSION:3.0".data ++ '\n' :: "FN:".data) := by decide
  have e2 : ("\nORG:" : String).data = '\n' :: "ORG:".data := by decide
  have e3 : ("\nTITLE:" : String).data = '\n' :: "TITLE:".data := by decide
  have e4 : ("\nEMAIL:" : String).data = '\n' :: "EMAIL:".data := by decide
  have e5 : ("\nTEL:" : String).data = '\n' :: "TEL:".data := by decide
  have e6 : ("\nURL:" : String).data = '\n' :: "URL:".data := by decide
  have e7 : ("\nADR:;;" : String).data = '\n' :: "ADR:;;".data := by decide
  have e8 : (";;;;\nEND:VCARD" : String).data = ";;;;".data ++ '\n' :: "END:VCARD".data := by
    decide
  simp only [generate_qr_code_vcard, vcard_line_list, joinSep, String.data_append,
    e1, e2, e3, e4, e5, e6, e7, e8]
  simp [List.append_assoc]

theorem vcard_lines_eq (d : CardData)
    (hn : '\n' ∉ d.name.data) (hc : '\n' ∉ d.company.data)
    (hj : '\n' ∉ d.job_title.data) (he : '\n' ∉ d.email.data)
    (hp : '\n' ∉ d.phone.data) (hw : '\n' ∉ d.website.data)
    (ha : '\n' ∉ d.address.data) :
    vcardLines (generate_qr_code_vcard d) = vcard_line_list d := by
  rw [vcardLines, vcard_data_eq]
  refine splitOnChar_joinSep ?_ (by simp [vcard_line_list])
  intro l hl
  simp only [vcard_line_list, List.mem_cons, List.mem_singleton] at hl
  rcases hl with rfl | rfl | rfl | rfl | rfl | rfl | rfl | rfl | rfl | rfl | h
  · decide
  · decide
  · exact no_nl_append (by decide) hn
  · exact no_nl_append (by decide) hc
  · exact no_nl_append (by decide) hj
  · exact no_nl_append (by decide) he
  · exact no_nl_append (by decide) hp
  · exact no_nl_append (by decide) hw
  · exact no_nl_append (no_nl_append (by decide) ha) (by decide)
  · decide
  · exact absurd h (List.not_mem_nil l)

end CardGenerator

namespace AdvancedCardGenerator

/-- The line structure of the f-string built by generate_advanced_qr. -/
def vcard_line_list (d : CardData) : List (List Char) :=
  ["BEGIN:VCARD".data, "VERSION:3.0".data, ("FN:" ++ d.name).data,
   ("N:" ++ pyListRepr (pyRotateLast (pySplitWs d.name))).data,
   ("ORG:" ++ d.company).data, ("TITLE:" ++ d.job_title).data,
   ("EMAIL;TYPE=WORK:" ++ d.email).data, ("TEL;TYPE=WORK,VOICE:" ++ d.phone).data,
   ("URL:" ++ d.website).data, ("ADR;TYPE=WORK:;;" ++ d.address ++ ";;;;").data,
   ("NOTE:" ++ d.notes).data, "END:VCARD".data]

theorem adv_vcard_data_eq (d : CardData) :
    (generate_advanced_qr_vcard d).data = joinSep '\n' (vcard_line_list d) := by
  have e1 : ("BEGIN:VCARD\nVERSION:3.0\nFN:" : String).data
      = "BEGIN:VCARD".data ++ '\n' :: ("VERSION:3.0".data ++ '\n' :: "FN:".data) := by decide
  have e2 : ("\nN:" : String).data = '\n' :: "N:".data := by decide
  have e3 : ("\nORG:" : String).data = '\n' :: "ORG:".data := by decide
  have e4 : ("\nTITLE:" : String).data = '\n' :: "TITLE:".data := by decide
  have e5 : ("\nEMAIL;TYPE=WORK:" : String).data = '\n' :: "EMAIL;TYPE=WORK:".data := by
    decide
  have e6 : ("\nTEL;TYPE=WORK,VOICE:" : String).data
      = '\n' :: "TEL;TYPE=WORK,VOICE:".data := by decide
  have e7 : ("\nURL:" : String).data = '\n' :: "URL:".data := by decide
  have e8 : ("\nADR;TYPE=WORK:;;" : String).data = '\n' :: "ADR;TYPE=WORK:;;".data := by
    decide
  have e9 : ("\nNOTE:" : String).data = '\n' :: "NOTE:".data := by decide
  have e10 : ("\nEND:VCARD" : String).data = '\n' :: "END:VCARD".data := by decide
  simp only [generate_advanced_qr_vcard, vcard_line_list, joinSep, String.data_append,
    e1, e2, e3, e4, e5, e6, e7, e8, e9, e10]
  simp [List.append_assoc]

theorem adv_vcard_lines_eq (d : CardData)
    (hn : '\n' ∉ d.name.data) (hc : '\n' ∉ d.company.data)
    (hj : '\n' ∉ d.job_title.data) (he : '\n' ∉ d.email.data)
    (hp : '\n' ∉ d.phone.data) (hw : '\n' ∉ d.website.data)
    (ha : '\n' ∉ d.address.data) (ht : '\n' ∉ d.notes.data) :
    vcardLines (generate_advanced_qr_vcard d) = vcard_line_list d := by
  rw [vcardLines, adv_vcard_data_eq]
  refine splitOnChar_joinSep ?_ (by simp [vcard_line_list])
  intro l hl
  simp only [vcard_line_list, List.mem_cons, List.mem_singleton] at hl
  rcases hl with rfl | rfl | rfl | rfl | rfl | rfl | rfl | rfl | rfl | rfl | rfl | rfl | h
  · decide
  · decide
  · exact no_nl_append (by decide) hn
  · refine no_nl_append (by decide) (pyListRepr_no_nl ?_)
    intro p hpm
    exact pySplitWs_no_nl d.name p (pyRotateLast_subset _ p hpm)
  · exact no_nl_append (by decide) hc
  · exact no_nl_append (by decide) hj
  · exact no_nl_append (by decide) he
  · exact no_nl_append (by decide) hp
  · exact no_nl_append (by decide) hw
  · exact no_nl_append (no_nl_append (by decide) ha) (by decide)
  · exact no_nl_append (by decide) ht
  · decide
  · exact absurd h (List.not_mem_nil l)

end AdvancedCardGenerator

/-! Helper lemmas about the renderers. -/

namespace CardGenerator

theorem renderTemplate_width (g : Gen) (t : TemplateId) (d : CardData) (c : Scheme) :
    (renderTemplate g t d c).width = g.card_width := by
  cases t <;> rfl

theorem renderTemplate_height (g : Gen) (t : TemplateId) (d : CardData) (c : Scheme) :
    (renderTemplate g t d c).height = g.card_height := by
  cases t <;> rfl

theorem renderTemplate_hasQr (g : Gen) (t : TemplateId) (d : CardData) (c : Scheme) :
    (renderTemplate g t d c).hasQr = false := by
  cases t <;> rfl

theorem generate_card_width (g : Gen) (fs : FS) (d : CardData) :
    (generate_card g fs d).width = g.card_width := by
  simp only [generate_card]
  split_ifs <;> simp [renderTemplate_width]

theorem generate_card_height (g : Gen) (fs : FS) (d : CardData) :
    (generate_card g fs d).height = g.card_height := by
  simp only [generate_card]
  split_ifs <;> simp [renderTemplate_height]

theorem generate_card_hasQr (g : Gen) (fs : FS) (d : CardData) :
    (generate_card g fs d).hasQr = d.include_qr := by
  simp only [generate_card]
  split_ifs <;> simp_all [renderTemplate_hasQr]

end CardGenerator

namespace AdvancedCardGenerator

theorem adv_renderTemplate_width (g : Gen) (t : TemplateId) (d : CardData) (c : Scheme) :
    (renderTemplate g t d c).width = g.card_width := by
  cases t <;> rfl

theorem adv_renderTemplate_height (g : Gen) (t : TemplateId) (d : CardData) (c : Scheme) :
    (renderTemplate g t d c).height = g.card_height := by
  cases t <;> rfl

theorem adv_generate_card_width (g : Gen) (fs : FS) (d : CardData) :
    (generate_card g fs d).width = g.card_width := by
  simp only [generate_card]
  split_ifs <;> simp [adv_renderTemplate_width]

theorem adv_generate_card_height (g : Gen) (fs : FS) (d : CardData) :
    (generate_card g fs d).height = g.card_height := by
  simp only [generate_card]
  split_ifs <;> simp [adv_renderTemplate_height]

theorem export_png_hd_state (g : Gen) (fs : FS) (d : CardData) :
    (export_png_hd g fs d).2 = g := by
  cases g
  rfl

end AdvancedCardGenerator

/-- A concrete filesystem oracle for witnesses: nothing exists, saving works. -/
def fs0 : FS :=
  { pathExists := fun _ => false, readableImage := fun _ => false, saveOk := true }

/-- C1: a contact record whose template key is absent from the template
registry and whose color_scheme key is absent from the palette registry still
renders: CardGenerator falls back to the modern template and the
corporate_blue palette, AdvancedCardGenerator falls back to the
executive_premium template and the executive_navy palette, and in both
generators generate_card still returns a full-canvas rendered image — the
unknown keys never make the render fail. -/
theorem claim1_unknown_keys_fall_back (d : CardData) (fs : FS)
    (ht : CardGenerator.templates.lookup (d.template.getD "modern") = none)
    (hc : CardGenerator.color_schemes.lookup (d.color_scheme.getD "blue") = none)
    (ht2 : AdvancedCardGenerator.templates.lookup
      (d.template.getD "executive_premium") = none)
    (hc2 : AdvancedCardGenerator.color_schemes.lookup
      (d.color_scheme.getD "executive_navy") = none) :
    CardGenerator.resolveTemplateId d = CardGenerator.TemplateId.modern ∧
    CardGenerator.resolveScheme d = CardGenerator.corporate_blue ∧
    (CardGenerator.generate_card CardGenerator.init fs d).width = 1050 ∧
    (CardGenerator.generate_card CardGenerator.init fs d).height = 600 ∧
    AdvancedCardGenerator.resolveTemplateId d
      = AdvancedCardGenerator.TemplateId.executive_premium ∧
    AdvancedCardGenerator.resolveScheme d = AdvancedCardGenerator.executive_navy ∧
    (AdvancedCardGenerator.generate_card AdvancedCardGenerator.init fs d).width = 1050 ∧
    (AdvancedCardGenerator.generate_card AdvancedCardGenerator.init fs d).height = 600 := by
  refine ⟨?_, ?_, ?_, ?_, ?_, ?_, ?_, ?_⟩
  · simp [CardGenerator.resolveTemplateId, ht]
  · simp [CardGenerator.resolveScheme, hc]
  · exact CardGenerator.generate_card_width _ _ _
  · exact CardGenerator.generate_card_height _ _ _
  · simp [AdvancedCardGenerator.resolveTemplateId, ht2]
  · simp [AdvancedCardGenerator.resolveScheme, hc2]
  · exact AdvancedCardGenerator.adv_generate_card_width _ _ _
  · exact AdvancedCardGenerator.adv_generate_card_height _ _ _

/-- Witness for C1 at the unknown keys "no_such_template" and
"no_such_palette". -/
theorem claim1_witness :
    CardGenerator.resolveTemplateId
        { template := some "no_such_template", color_scheme := some "no_such_palette" }
      = CardGenerator.TemplateId.modern ∧
    CardGenerator.resolveScheme
        { template := some "no_such_template", color_scheme := some "no_such_palette" }
      = CardGenerator.corporate_blue ∧
    (CardGenerator.generate_card CardGenerator.init fs0
        { template := some "no_such_template", color_scheme := some "no_such_palette" }).width
      = 1050 ∧
    (CardGenerator.generate_card CardGenerator.init fs0
        { template := some "no_such_template", color_scheme := some "no_such_palette" }).height
      = 600 ∧
    AdvancedCardGenerator.resolveTemplateId
        { template := some "no_such_template", color_scheme := some "no_such_palette" }
      = AdvancedCardGenerator.TemplateId.executive_premium ∧
    AdvancedCardGenerator.resolveScheme
        { template := some "no_such_template", color_scheme := some "no_such_palette" }
      = AdvancedCardGenerator.executive_navy ∧
    (AdvancedCardGenerator.generate_card AdvancedCardGenerator.init fs0
        { template := some "no_such_template", color_scheme := some "no_such_palette" }).width
      = 1050 ∧
    (AdvancedCardGenerator.generate_card AdvancedCardGenerator.init fs0
        { template := some "no_such_template", color_scheme := some "no_such_palette" }).height
      = 600 :=
  claim1_unknown_keys_fall_back
    { template := some "no_such_template", color_scheme := some "no_such_palette" } fs0
    (by decide) (by decide) (by decide) (by decide)

/-- C2: for every supported template key and palette key (present in the
registries) and every contact record carrying them, generate_card on a freshly
constructed generator returns an image of exactly the configured canvas
dimensions, 1050 x 600 pixels, in both generators; and export_png_hd (the HD
export path) saves an image of exactly double those dimensions, 2100 x 1200
pixels. -/
theorem claim2_canvas_dimensions (T P T2 P2 : String) (d : CardData) (fs : FS)
    (hT : (CardGenerator.templates.lookup T).isSome = true)
    (hP : (CardGenerator.color_schemes.lookup P).isSome = true)
    (hT2 : (AdvancedCardGenerator.templates.lookup T2).isSome = true)
    (hP2 : (AdvancedCardGenerator.color_schemes.lookup P2).isSome = true)
    (hsave : fs.saveOk = true) :
    (CardGenerator.generate_card CardGenerator.init fs
        { d with template := some T, color_scheme := some P }).width = 1050 ∧
    (CardGenerator.generate_card CardGenerator.init fs
        { d with template := some T, color_scheme := some P }).height = 600 ∧
    (AdvancedCardGenerator.generate_card AdvancedCardGenerator.init fs
        { d with template := some T2, color_scheme := some P2 }).width = 1050 ∧
    (AdvancedCardGenerator.generate_card AdvancedCardGenerator.init fs
        { d with template := some T2, color_scheme := some P2 }).height = 600 ∧
    ((AdvancedCardGenerator.export_png_hd AdvancedCardGenerator.init fs
        { d with template := some T2, color_scheme := some P2 }).1.map Img.width)
      = some 2100 ∧
    ((AdvancedCardGenerator.export_png_hd AdvancedCardGenerator.init fs
        { d with template := some T2, color_scheme := some P2 }).1.map Img.height)
      = some 1200 := by
  refine ⟨CardGenerator.generate_card_width _ _ _, CardGenerator.generate_card_height _ _ _,
    AdvancedCardGenerator.adv_generate_card_width _ _ _,
    AdvancedCardGenerator.adv_generate_card_height _ _ _, ?_, ?_⟩ <;>
  · simp only [AdvancedCardGenerator.export_png_hd, hsave, if_pos]
    simp [AdvancedCardGenerator.adv_generate_card_width, AdvancedCardGenerator.adv_generate_card_height,
      AdvancedCardGenerator.init]

/-- Witness for C2 at the supported keys ("tech", "royal_purple") and
("tech_neon", "luxury_gold"). -/
theorem claim2_witness :
    (CardGenerator.generate_card CardGenerator.init fs0
        { template := some "tech", color_scheme := some "royal_purple" }).width = 1050 ∧
    (CardGenerator.generate_card CardGenerator.init fs0
        { template := some "tech", color_scheme := some "royal_purple" }).height = 600 ∧
    (AdvancedCardGenerator.generate_card AdvancedCardGenerator.init fs0
        { template := some "tech_neon", color_scheme := some "luxury_gold" }).width = 1050 ∧
    (AdvancedCardGenerator.generate_card AdvancedCardGenerator.init fs0
        { template := some "tech_neon", color_scheme := some "luxury_gold" }).height = 600 ∧
    ((AdvancedCardGenerator.export_png_hd AdvancedCardGenerator.init fs0
        { template := some "tech_neon", color_scheme := some "luxury_gold" }).1.map Img.width)
      = some 2100 ∧
    ((AdvancedCardGenerator.export_png_hd AdvancedCardGenerator.init fs0
        { template := some "tech_neon", color_scheme := some "luxury_gold" }).1.map Img.height)
      = some 1200 :=
  claim2_canvas_dimensions "tech" "royal_purple" "tech_neon" "luxury_gold" {} fs0
    (by decide) (by decide) (by decide) (by decide) rfl

/-- The all-empty contact record of C8: every optional string field empty, no
logo, template and palette keys absent, the QR flag free. -/
def emptyCard (q : Bool) : CardData := { include_qr := q }

/-- C8: a contact record with every optional field empty still renders
successfully in both generators, with or without the QR flag: generate_card
returns a full-canvas image (blank regions drawn on the default template and
palette), with no logo overlay and with the QR overlay exactly per the flag —
no error is raised anywhere on the way. -/
theorem claim8_empty_record_renders (q : Bool) (fs : FS) :
    CardGenerator.generate_card CardGenerator.init fs (emptyCard q)
      = { width := 1050, height := 600, background := "white",
          hasLogo := false, hasQr := q } ∧
    AdvancedCardGenerator.generate_card AdvancedCardGenerator.init fs (emptyCard q)
      = { width := 1050, height := 600, background := "#f7fafc",
          hasLogo := false, hasQr := q } := by
  cases q <;> exact ⟨rfl, rfl⟩

/-- C10: export_png_hd leaves the generator state unchanged — whether the
save succeeds or raises, the card_width and card_height attributes after the
call equal their values before it, and a subsequent normal render on the
restored default state again produces a 1050 x 600 image. -/
theorem claim10_png_hd_restores_state (g : AdvancedCardGenerator.Gen) (fs fs2 : FS)
    (d d2 : CardData) :
    (AdvancedCardGenerator.export_png_hd g fs d).2 = g ∧
    (AdvancedCardGenerator.generate_card
        (AdvancedCardGenerator.export_png_hd AdvancedCardGenerator.init fs d).2 fs2 d2).width
      = 1050 ∧
    (AdvancedCardGenerator.generate_card
        (AdvancedCardGenerator.export_png_hd AdvancedCardGenerator.init fs d).2 fs2 d2).height
      = 600 := by
  refine ⟨AdvancedCardGenerator.export_png_hd_state g fs d, ?_, ?_⟩ <;>
  · rw [AdvancedCardGenerator.export_png_hd_state]
    first
    | exact AdvancedCardGenerator.adv_generate_card_width _ _ _
    | exact AdvancedCardGenerator.adv_generate_card_height _ _ _

/-- C5 counterexample: CardGenerator.export_pdf does not produce a page of the
physical card size — it creates a reportlab canvas with pagesize=letter, so
the page measures 612 x 792 points instead of 252 x 144 (3.5in x 2in), far
beyond any rounding tolerance. -/
theorem claim5_counterexample :
    (CardGenerator.export_pdf_doc CardGenerator.init).page_width = 612 ∧
    (CardGenerator.export_pdf_doc CardGenerator.init).page_height = 792 ∧
    ¬((CardGenerator.export_pdf_doc CardGenerator.init).page_width = 252 ∧
      (CardGenerator.export_pdf_doc CardGenerator.init).page_height = 144) := by
  refine ⟨rfl, rfl, ?_⟩
  intro h
  have := h.1
  norm_num [CardGenerator.export_pdf_doc, letter_size] at this

/-- C5 amended: AdvancedCardGenerator.export_premium_pdf with
print_ready=False produces a page of exactly the physical card size,
3.5in x 2in = 252 x 144 points, with the rendered card image placed full-bleed
(zero margins, image at the origin filling the page); CardGenerator.export_pdf
instead places the 252 x 144 point card image centred on a letter-size
612 x 792 point page. -/
theorem claim5_amended_pdf_geometry :
    AdvancedCardGenerator.export_premium_pdf_doc false
      = { page_width := 252, page_height := 144, left_margin := 0, right_margin := 0,
          top_margin := 0, bottom_margin := 0, image_x := 0, image_y := 0,
          image_width := 252, image_height := 144 } ∧
    CardGenerator.export_pdf_doc CardGenerator.init
      = { page_width := 612, page_height := 792, left_margin := 0, right_margin := 0,
          top_margin := 0, bottom_margin := 0, image_x := 180, image_y := 324,
          image_width := 252, image_height := 144 } := by
  constructor <;>
  · simp only [AdvancedCardGenerator.export_premium_pdf_doc, CardGenerator.export_pdf_doc,
      CardGenerator.init, letter_size, inch, if_neg Bool.false_ne_true, PdfDoc.mk.injEq]
    norm_num

/-- C7 counterexample: the sweep only touches files matching its glob patterns
(png/pdf/html/zip in the export folder), so exports/stale.txt — older than the
default 60 second threshold at sweep time 1000 — is not deleted by the sweep
tick, contradicting the claim that every file older than the threshold is
deleted. -/
theorem claim7_counterexample :
    (0 : Int) < 1000 - 60 ∧
    (FileCleanupManager.cleanup_old_files 60 1000
        { export_files := [{ name := "stale.txt", mtime := 0 }],
          preview_files := [] }).export_files
      = [{ name := "stale.txt", mtime := 0 }] := by
  constructor
  · decide
  · decide

/-- C7 amended: one sweep tick deletes exactly the files that both match the
directory's glob patterns (*.png/*.pdf/*.html/*.zip under the export folder,
*.png/*.jpg/*.jpeg under the preview folder) and are modified before
now - threshold; every file younger than the threshold survives, and so does
any file with a non-swept extension regardless of age. -/
theorem claim7_amended_sweep (cleanup_interval now : Int)
    (s : FileCleanupManager.DirState) (f : FileCleanupManager.FileEntry) :
    (f ∈ (FileCleanupManager.cleanup_old_files cleanup_interval now s).export_files ↔
      f ∈ s.export_files ∧
        ¬(FileCleanupManager.matchesAny FileCleanupManager.export_patterns f.name = true ∧
          f.mtime < now - cleanup_interval)) ∧
    (f ∈ (FileCleanupManager.cleanup_old_files cleanup_interval now s).preview_files ↔
      f ∈ s.preview_files ∧
        ¬(FileCleanupManager.matchesAny FileCleanupManager.preview_patterns f.name = true ∧
          f.mtime < now - cleanup_interval)) := by
  constructor <;>
    simp only [FileCleanupManager.cleanup_old_files, List.mem_filter, Bool.not_eq_true',
      Bool.eq_false_iff, ne_eq, Bool.and_eq_true, decide_eq_true_iff, not_and]

/-- C9 counterexample: batch_export_premium parses include_qr by comparing the
lowercased value with "true" only, so a CSV row carrying include_qr = "1" —
which the claim says must parse as true — yields false on the premium batch
path. -/
theorem claim9_counterexample :
    (AdvancedCardGenerator.premium_row_card
        [("include_qr", "1"), ("name", "Ada")]).include_qr = false ∧
    (["true", "1", "yes"] : List String).contains
      (pyLower (rowGet [("include_qr", "1"), ("name", "Ada")] "include_qr" "")) = true := by
  constructor <;> decide

/-- C9 amended: CardGenerator.batch_export parses a row's include_qr as true
exactly when its lowercased value is one of "true", "1", "yes" (false for
every other value, including an absent column), and CardGenerator.generate_card
adds the QR overlay exactly when the parsed flag is true;
AdvancedCardGenerator.batch_export_premium instead parses include_qr as true
exactly when the lowercased value equals "true". -/
theorem claim9_amended_include_qr (row : Row) (g : CardGenerator.Gen) (fs : FS)
    (cd : CardData) :
    ((CardGenerator.batch_row_card row).include_qr = true ↔
      pyLower (rowGet row "include_qr" "") ∈ (["true", "1", "yes"] : List String)) ∧
    ((AdvancedCardGenerator.premium_row_card row).include_qr = true ↔
      pyLower (rowGet row "include_qr" "") = "true") ∧
    (CardGenerator.generate_card g fs cd).hasQr = cd.include_qr := by
  refine ⟨?_, ?_, CardGenerator.generate_card_hasQr g fs cd⟩
  · simp [CardGenerator.batch_row_card, List.elem_iff]
  · simp [AdvancedCardGenerator.premium_row_card]

/-- C3 counterexample: the /batch_process handler in routes.py — the routes
module app.py actually imports — performs no header validation: a CSV whose
header lacks the required email column is not rejected; the handler runs the
batch and returns the archive (here containing the row's card, rendered with a
blank email), so output is produced for a batch the claim says must be
rejected before any output file exists. -/
theorem claim3_counterexample :
    missing_columns ["name", "job_title", "company"] = ["email"] ∧
    routes_batch_process (fun _ _ => some "exports/tmp_card.png") "t"
        { header := ["name", "job_title", "company"], rows := [[("name", "Ada")]] } "png"
      = .ok ("exports/business_cards_t.zip",
             [("card_1_Ada.png", "exports/tmp_card.png")]) := by
  constructor
  · decide
  · rfl

/-- C3 amended: the validating /batch_process handler (new_routes.py) rejects
a CSV whose header lacks any of the required columns name, job_title, company,
email with an explicit error naming exactly the missing columns, before any
row is processed and before any output file is created — the error result does
not depend on the data rows, the export oracle, the format or the archive
name; the handler in routes.py (the one app.py registers) performs no such
validation (see the counterexample). -/
theorem claim3_amended_header_validation (export1 : Nat → CardData → Option String)
    (uid : String) (csv : CsvFile) (fmt : String)
    (h : (missing_columns csv.header).isEmpty = false) :
    new_routes_batch_process export1 uid csv fmt
      = .error ("CSV missing required columns: "
          ++ pyJoin ", " (missing_columns csv.header)) ∧
    ∀ (export2 : Nat → CardData → Option String) (uid2 : String) (rows2 : List Row)
      (fmt2 : String),
      new_routes_batch_process export2 uid2 { header := csv.header, rows := rows2 } fmt2
        = new_routes_batch_process export1 uid csv fmt := by
  constructor
  · simp [new_routes_batch_process, h]
  · intro export2 uid2 rows2 fmt2
    simp [new_routes_batch_process, h]

/-- Witness for C3's amended theorem at a header missing the email column. -/
theorem claim3_amended_witness :
    new_routes_batch_process (fun _ _ => some "exports/tmp_card.png") "u"
        { header := ["name", "job_title", "company"], rows := [[("name", "Ada")]] } "png"
      = .error ("CSV missing required columns: "
          ++ pyJoin ", " (missing_columns ["name", "job_title", "company"])) ∧
    ∀ (export2 : Nat → CardData → Option String) (uid2 : String) (rows2 : List Row)
      (fmt2 : String),
      new_routes_batch_process export2 uid2
          { header := ["name", "job_title", "company"], rows := rows2 } fmt2
        = new_routes_batch_process (fun _ _ => some "exports/tmp_card.png") "u"
            { header := ["name", "job_title", "company"], rows := [[("name", "Ada")]] } "png" :=
  claim3_amended_header_validation (fun _ _ => some "exports/tmp_card.png") "u"
    { header := ["name", "job_title", "company"], rows := [[("name", "Ada")]] } "png"
    (by decide)

/-! List lemmas for the batch loops. -/

theorem zip_loop_eq_filterMap (step : Nat → Row → Option (String × String)) :
    ∀ (i : Nat) (rows : List Row),
      zip_loop step i rows = (List.enumFrom i rows).filterMap (fun p => step p.1 p.2)
  | _, [] => rfl
  | i, r :: rest => by
    simp only [zip_loop, List.enumFrom, List.filterMap_cons]
    cases h : step i r with
    | none => simp [zip_loop_eq_filterMap step (i + 1) rest]
    | some e => simp [zip_loop_eq_filterMap step (i + 1) rest]

theorem filterMap_congr_mem {α β : Type} (f g : α → Option β) :
    ∀ (l : List α), (∀ a ∈ l, f a = g a) → l.filterMap f = l.filterMap g
  | [], _ => rfl
  | a :: as, h => by
    have ha := h a (List.mem_cons_self a as)
    have ih := filterMap_congr_mem f g as (fun x hx => h x (List.mem_cons_of_mem a hx))
    simp [List.filterMap_cons, ha, ih]

theorem filterMap_eq_of_none_off {α β : Type} (f : α → Option β) (q : α → Bool) :
    ∀ (l : List α), (∀ a ∈ l, q a = false → f a = none) →
      l.filterMap f = (l.filter q).filterMap f
  | [], _ => rfl
  | a :: as, h => by
    have ih := filterMap_eq_of_none_off f q as (fun x hx => h x (List.mem_cons_of_mem a hx))
    by_cases hq : q a = true
    · simp [List.filter_cons, hq, List.filterMap_cons, ih]
    · have hfa : f a = none := h a (List.mem_cons_self a as) (by simpa using hq)
      simp [List.filter_cons, hq, List.filterMap_cons, hfa, ih]

theorem length_filterMap_all_some {α β : Type} (f : α → Option β) :
    ∀ (l : List α), (∀ a ∈ l, (f a).isSome = true) → (l.filterMap f).length = l.length
  | [], _ => rfl
  | a :: as, h => by
    obtain ⟨b, hb⟩ := Option.isSome_iff_exists.mp (h a (List.mem_cons_self a as))
    simp [List.filterMap_cons, hb,
      length_filterMap_all_some f as (fun x hx => h x (List.mem_cons_of_mem a hx))]

theorem filter_enumFrom_all_ne {α : Type} (k : Nat) :
    ∀ (i : Nat) (l : List α), k < i →
      (List.enumFrom i l).filter (fun p => p.1 != k) = List.enumFrom i l
  | _, [], _ => rfl
  | i, a :: as, hk => by
    have hne : (i != k) = true := by simp [Nat.ne_of_gt hk]
    simp [List.enumFrom, List.filter_cons, hne,
      filter_enumFrom_all_ne k (i + 1) as (Nat.lt_succ_of_lt hk)]

theorem length_filter_enumFrom_ne {α : Type} (k : Nat) :
    ∀ (i : Nat) (l : List α), i ≤ k → k < i + l.length →
      ((List.enumFrom i l).filter (fun p => p.1 != k)).length = l.length - 1
  | i, [], hik, hk => by simp at hk; omega
  | i, a :: as, hik, hk => by
    by_cases hi : i = k
    · subst hi
      have hii : (i != i) = false := by simp
      simp [List.enumFrom, List.filter_cons, hii,
        filter_enumFrom_all_ne i (i + 1) as (Nat.lt_succ_self i), List.enumFrom_length]
    · have h1 : i + 1 ≤ k := by omega
      have h2 : k < (i + 1) + as.length := by simp at hk; omega
      have hne : (i != k) = true := by simp [hi]
      have ih := length_filter_enumFrom_ne k (i + 1) as h1 h2
      have hlen : 1 ≤ as.length := by omega
      simp [List.enumFrom, List.filter_cons, hne, ih]
      omega

/-- The skeleton result for a loop in which the step succeeds exactly off row
k: the archive lists exactly the successful rows' entries, and there are
exactly one fewer of them than rows. -/
theorem isSome_opt_map {α β : Type} (f : α → β) (o : Option α) :
    (o.map f).isSome = o.isSome := by
  cases o <;> rfl

theorem zip_loop_one_failure (step : Nat → Row → Option (String × String)) (k : Nat)
    (rows : List Row) (hk : k < rows.length)
    (hs : ∀ p ∈ rows.enum, (step p.1 p.2).isSome = (p.1 != k)) :
    zip_loop step 0 rows
      = ((rows.enum.filter (fun p => p.1 != k)).filterMap (fun p => step p.1 p.2)) ∧
    (zip_loop step 0 rows).length = rows.length - 1 := by
  have henum : rows.enum = List.enumFrom 0 rows := rfl
  have hmain : zip_loop step 0 rows
      = ((rows.enum.filter (fun p => p.1 != k)).filterMap (fun p => step p.1 p.2)) := by
    rw [zip_loop_eq_filterMap step 0 rows, ← henum]
    refine filterMap_eq_of_none_off _ _ _ ?_
    intro p hp hq
    have := hs p hp
    rw [hq] at this
    exact Option.not_isSome_iff_eq_none.mp (by simp [this])
  refine ⟨hmain, ?_⟩
  rw [hmain]
  have hlen2 : ((rows.enum.filter (fun p => p.1 != k)).filterMap
      (fun p => step p.1 p.2)).length = (rows.enum.filter (fun p => p.1 != k)).length := by
    refine length_filterMap_all_some _ _ ?_
    intro p hp
    have hmem := List.mem_filter.mp hp
    rw [hs p hmem.1]
    exact hmem.2
  rw [hlen2, henum]
  exact length_filter_enumFrom_ne k 0 rows (Nat.zero_le k) (by simpa using hk)

namespace CardGenerator

theorem batch_step_png (export1 : Nat → CardData → Option String) (i : Nat) (row : Row) :
    batch_step export1 "png" i row
      = (export1 i (batch_row_card row)).map
          (fun path => (zip_arcname "png" i (batch_row_card row), path)) := by
  simp [batch_step]

end CardGenerator

/-- C4: for every row sequence in which exactly one row k makes the per-row
renderer/exporter call raise (and every other row's call succeeds), both batch
loops catch the exception, skip row k, continue with all remaining rows, and
return the archive path normally; the archive holds exactly the entries of the
successfully processed rows — one fewer than the number of rows. -/
theorem claim4_batch_skips_failed_row (e1 e2 : Nat → CardData → Option String)
    (rows : List Row) (k : Nat) (ts uid : String)
    (hk : k < rows.length)
    (h1 : ∀ p ∈ rows.enum,
      (e1 p.1 (CardGenerator.batch_row_card p.2)).isSome = (p.1 != k))
    (h2 : ∀ p ∈ rows.enum,
      (e2 p.1 (AdvancedCardGenerator.premium_row_card p.2)).isSome = (p.1 != k)) :
    (CardGenerator.batch_export e1 ts rows "png").1
      = "exports/business_cards_" ++ ts ++ ".zip" ∧
    (CardGenerator.batch_export e1 ts rows "png").2
      = ((rows.enum.filter (fun p => p.1 != k)).filterMap
          (fun p => (e1 p.1 (CardGenerator.batch_row_card p.2)).map
            (fun path =>
              (CardGenerator.zip_arcname "png" p.1 (CardGenerator.batch_row_card p.2),
               path)))) ∧
    (CardGenerator.batch_export e1 ts rows "png").2.length = rows.length - 1 ∧
    (AdvancedCardGenerator.batch_export_premium e2 uid rows "png").1
      = "exports/premium_business_cards_" ++ uid ++ ".zip" ∧
    (AdvancedCardGenerator.batch_export_premium e2 uid rows "png").2
      = ((rows.enum.filter (fun p => p.1 != k)).filterMap
          (fun p => (e2 p.1 (AdvancedCardGenerator.premium_row_card p.2)).map
            (fun path =>
              (AdvancedCardGenerator.premium_arcname "png" p.1
                (AdvancedCardGenerator.premium_row_card p.2), path)))) ∧
    (AdvancedCardGenerator.batch_export_premium e2 uid rows "png").2.length
      = rows.length - 1 := by
  have hstep1 : ∀ p ∈ rows.enum,
      (CardGenerator.batch_step e1 "png" p.1 p.2).isSome = (p.1 != k) := by
    intro p hp
    rw [CardGenerator.batch_step_png, isSome_opt_map]
    exact h1 p hp
  have hstep2 : ∀ p ∈ rows.enum,
      (AdvancedCardGenerator.premium_step e2 "png" p.1 p.2).isSome = (p.1 != k) := by
    intro p hp
    rw [show AdvancedCardGenerator.premium_step e2 "png" p.1 p.2
        = (e2 p.1 (AdvancedCardGenerator.premium_row_card p.2)).map
            (fun path => (AdvancedCardGenerator.premium_arcname "png" p.1
              (AdvancedCardGenerator.premium_row_card p.2), path)) from rfl,
      isSome_opt_map]
    exact h2 p hp
  obtain ⟨hA, hA2⟩ := zip_loop_one_failure (CardGenerator.batch_step e1 "png") k rows hk hstep1
  obtain ⟨hB, hB2⟩ :=
    zip_loop_one_failure (AdvancedCardGenerator.premium_step e2 "png") k rows hk hstep2
  refine ⟨rfl, ?_, hA2, rfl, ?_, hB2⟩
  · rw [show (CardGenerator.batch_export e1 ts rows "png").2
        = zip_loop (CardGenerator.batch_step e1 "png") 0 rows from rfl, hA]
    exact filterMap_congr_mem _ _ _
      (fun p _ => CardGenerator.batch_step_png e1 p.1 p.2)
  · rw [show (AdvancedCardGenerator.batch_export_premium e2 uid rows "png").2
        = zip_loop (AdvancedCardGenerator.premium_step e2 "png") 0 rows from rfl, hB]
    exact filterMap_congr_mem _ _ _ (fun p _ => rfl)

/-- Witness for C4: two rows, the first (k = 0) failing, on both batch
paths. -/
theorem claim4_witness :
    (CardGenerator.batch_export
        (fun i _ => if i = 0 then none else some "exports/a.png") "t"
        [[("name", "Ada")], [("name", "Bob")]] "png").1
      = "exports/business_cards_" ++ "t" ++ ".zip" ∧
    (CardGenerator.batch_export
        (fun i _ => if i = 0 then none else some "exports/a.png") "t"
        [[("name", "Ada")], [("name", "Bob")]] "png").2
      = ((([[("name", "Ada")], [("name", "Bob")]] : List Row).enum.filter
            (fun p => p.1 != 0)).filterMap
          (fun p => ((fun (i : Nat) (_ : CardData) =>
              if i = 0 then none else some "exports/a.png") p.1
                (CardGenerator.batch_row_card p.2)).map
            (fun path =>
              (CardGenerator.zip_arcname "png" p.1 (CardGenerator.batch_row_card p.2),
               path)))) ∧
    (CardGenerator.batch_export
        (fun i _ => if i = 0 then none else some "exports/a.png") "t"
        [[("name", "Ada")], [("name", "Bob")]] "png").2.length
      = ([[("name", "Ada")], [("name", "Bob")]] : List Row).length - 1 ∧
    (AdvancedCardGenerator.batch_export_premium
        (fun i _ => if i = 0 then none else some "exports/b.png") "u"
        [[("name", "Ada")], [("name", "Bob")]] "png").1
      = "exports/premium_business_cards_" ++ "u" ++ ".zip" ∧
    (AdvancedCardGenerator.batch_export_premium
        (fun i _ => if i = 0 then none else some "exports/b.png") "u"
        [[("name", "Ada")], [("name", "Bob")]] "png").2
      = ((([[("name", "Ada")], [("name", "Bob")]] : List Row).enum.filter
            (fun p => p.1 != 0)).filterMap
          (fun p => ((fun (i : Nat) (_ : CardData) =>
              if i = 0 then none else some "exports/b.png") p.1
                (AdvancedCardGenerator.premium_row_card p.2)).map
            (fun path =>
              (AdvancedCardGenerator.premium_arcname "png" p.1
                (AdvancedCardGenerator.premium_row_card p.2), path)))) ∧
    (AdvancedCardGenerator.batch_export_premium
        (fun i _ => if i = 0 then none else some "exports/b.png") "u"
        [[("name", "Ada")], [("name", "Bob")]] "png").2.length
      = ([[("name", "Ada")], [("name", "Bob")]] : List Row).length - 1 :=
  claim4_batch_skips_failed_row
    (fun i _ => if i = 0 then none else some "exports/a.png")
    (fun i _ => if i = 0 then none else some "exports/b.png")
    [[("name", "Ada")], [("name", "Bob")]] 0 "t" "u"
    (by decide) (by decide) (by decide)

/-- Well-formedness used by C6: the vCard-relevant fields are single-line
strings (a field containing a newline would break the vCard's line
structure). -/
def noNewlineFields (d : CardData) : Prop :=
  '\n' ∉ d.name.data ∧ '\n' ∉ d.company.data ∧ '\n' ∉ d.job_title.data ∧
  '\n' ∉ d.email.data ∧ '\n' ∉ d.phone.data ∧ '\n' ∉ d.website.data ∧
  '\n' ∉ d.address.data ∧ '\n' ∉ d.notes.data

theorem hasEntry_of_mem {lines : List (List Char)} (pre : String) {v p : String}
    (hmem : (pre ++ v).data ∈ lines)
    (hprop : vcardProp (pre ++ v).data = p.data)
    (hval : vcardValue (pre ++ v).data = v.data) :
    vcardHasEntry lines p v := ⟨_, hmem, hprop, hval⟩

/-- C6: for every contact record (with single-line field values), both vCard
payloads encoded into the QR code are framed by BEGIN:VCARD / VERSION:3.0 at
the top and END:VCARD at the bottom, and contain FN, ORG, TITLE, EMAIL, TEL
and URL entries whose values are exactly the record's name, company,
job_title, email, phone and website fields (the empty string standing for a
missing field, since the sources default every `get` to ''). -/
theorem claim6_qr_vcard_entries (d : CardData) (h : noNewlineFields d) :
    (vcardLines (CardGenerator.generate_qr_code_vcard d)).head?
      = some "BEGIN:VCARD".data ∧
    (vcardLines (CardGenerator.generate_qr_code_vcard d)).get? 1
      = some "VERSION:3.0".data ∧
    (vcardLines (CardGenerator.generate_qr_code_vcard d)).getLast?
      = some "END:VCARD".data ∧
    vcardHasEntry (vcardLines (CardGenerator.generate_qr_code_vcard d)) "FN" d.name ∧
    vcardHasEntry (vcardLines (CardGenerator.generate_qr_code_vcard d)) "ORG" d.company ∧
    vcardHasEntry (vcardLines (CardGenerator.generate_qr_code_vcard d)) "TITLE"
      d.job_title ∧
    vcardHasEntry (vcardLines (CardGenerator.generate_qr_code_vcard d)) "EMAIL" d.email ∧
    vcardHasEntry (vcardLines (CardGenerator.generate_qr_code_vcard d)) "TEL" d.phone ∧
    vcardHasEntry (vcardLines (CardGenerator.generate_qr_code_vcard d)) "URL" d.website ∧
    (vcardLines (AdvancedCardGenerator.generate_advanced_qr_vcard d)).head?
      = some "BEGIN:VCARD".data ∧
    (vcardLines (AdvancedCardGenerator.generate_advanced_qr_vcard d)).get? 1
      = some "VERSION:3.0".data ∧
    (vcardLines (AdvancedCardGenerator.generate_advanced_qr_vcard d)).getLast?
      = some "END:VCARD".data ∧
    vcardHasEntry (vcardLines (AdvancedCardGenerator.generate_advanced_qr_vcard d))
      "FN" d.name ∧
    vcardHasEntry (vcardLines (AdvancedCardGenerator.generate_advanced_qr_vcard d))
      "ORG" d.company ∧
    vcardHasEntry (vcardLines (AdvancedCardGenerator.generate_advanced_qr_vcard d))
      "TITLE" d.job_title ∧
    vcardHasEntry (vcardLines (AdvancedCardGenerator.generate_advanced_qr_vcard d))
      "EMAIL" d.email ∧
    vcardHasEntry (vcardLines (AdvancedCardGenerator.generate_advanced_qr_vcard d))
      "TEL" d.phone ∧
    vcardHasEntry (vcardLines (AdvancedCardGenerator.generate_advanced_qr_vcard d))
      "URL" d.website := by
  obtain ⟨hn, hc, hj, he, hp, hw, ha, ht⟩ := h
  rw [CardGenerator.vcard_lines_eq d hn hc hj he hp hw ha,
    AdvancedCardGenerator.adv_vcard_lines_eq d hn hc hj he hp hw ha ht]
  refine ⟨rfl, rfl, rfl, ?_, ?_, ?_, ?_, ?_, ?_, rfl, rfl, rfl, ?_, ?_, ?_, ?_, ?_, ?_⟩
  · exact hasEntry_of_mem "FN:" (by simp [CardGenerator.vcard_line_list])
      (by rw [String.data_append]; rfl) (by rw [String.data_append]; rfl)
  · exact hasEntry_of_mem "ORG:" (by simp [CardGenerator.vcard_line_list])
      (by rw [String.data_append]; rfl) (by rw [String.data_append]; rfl)
  · exact hasEntry_of_mem "TITLE:" (by simp [CardGenerator.vcard_line_list])
      (by rw [String.data_append]; rfl) (by rw [String.data_append]; rfl)
  · exact hasEntry_of_mem "EMAIL:" (by simp [CardGenerator.vcard_line_list])
      (by rw [String.data_append]; rfl) (by rw [String.data_append]; rfl)
  · exact hasEntry_of_mem "TEL:" (by simp [CardGenerator.vcard_line_list])
      (by rw [String.data_append]; rfl) (by rw [String.data_append]; rfl)
  · exact hasEntry_of_mem "URL:" (by simp [CardGenerator.vcard_line_list])
      (by rw [String.data_append]; rfl) (by rw [String.data_append]; rfl)
  · exact hasEntry_of_mem "FN:" (by simp [AdvancedCardGenerator.vcard_line_list])
      (by rw [String.data_append]; rfl) (by rw [String.data_append]; rfl)
  · exact hasEntry_of_mem "ORG:" (by simp [AdvancedCardGenerator.vcard_line_list])
      (by rw [String.data_append]; rfl) (by rw [String.data_append]; rfl)
  · exact hasEntry_of_mem "TITLE:"
      (by simp [AdvancedCardGenerator.vcard_line_list])
      (by rw [String.data_append]; rfl) (by rw [String.data_append]; rfl)
  · exact hasEntry_of_mem "EMAIL;TYPE=WORK:"
      (by simp [AdvancedCardGenerator.vcard_line_list])
      (by rw [String.data_append]; rfl) (by rw [String.data_append]; rfl)
  · exact hasEntry_of_mem "TEL;TYPE=WORK,VOICE:"
      (by simp [AdvancedCardGenerator.vcard_line_list])
      (by rw [String.data_append]; rfl) (by rw [String.data_append]; rfl)
  · exact hasEntry_of_mem "URL:" (by simp [AdvancedCardGenerator.vcard_line_list])
      (by rw [String.data_append]; rfl) (by rw [String.data_append]; rfl)

/-- Witness for C6 at a concrete two-field record. -/
theorem claim6_witness :
    (vcardLines (CardGenerator.generate_qr_code_vcard
        { name := "Jo Ann", email := "jo@x.io" })).head? = some "BEGIN:VCARD".data ∧
    (vcardLines (CardGenerator.generate_qr_code_vcard
        { name := "Jo Ann", email := "jo@x.io" })).get? 1 = some "VERSION:3.0".data ∧
    (vcardLines (CardGenerator.generate_qr_code_vcard
        { name := "Jo Ann", email := "jo@x.io" })).getLast? = some "END:VCARD".data ∧
    vcardHasEntry (vcardLines (CardGenerator.generate_qr_code_vcard
        { name := "Jo Ann", email := "jo@x.io" })) "FN" "Jo Ann" ∧
    vcardHasEntry (vcardLines (CardGenerator.generate_qr_code_vcard
        { name := "Jo Ann", email := "jo@x.io" })) "ORG" "" ∧
    vcardHasEntry (vcardLines (CardGenerator.generate_qr_code_vcard
        { name := "Jo Ann", email := "jo@x.io" })) "TITLE" "" ∧
    vcardHasEntry (vcardLines (CardGenerator.generate_qr_code_vcard
        { name := "Jo Ann", email := "jo@x.io" })) "EMAIL" "jo@x.io" ∧
    vcardHasEntry (vcardLines (CardGenerator.generate_qr_code_vcard
        { name := "Jo Ann", email := "jo@x.io" })) "TEL" "" ∧
    vcardHasEntry (vcardLines (CardGenerator.generate_qr_code_vcard
        { name := "Jo Ann", email := "jo@x.io" })) "URL" "" ∧
    (vcardLines (AdvancedCardGenerator.generate_advanced_qr_vcard
        { name := "Jo Ann", email := "jo@x.io" })).head? = some "BEGIN:VCARD".data ∧
    (vcardLines (AdvancedCardGenerator.generate_advanced_qr_vcard
        { name := "Jo Ann", email := "jo@x.io" })).get? 1 = some "VERSION:3.0".data ∧
    (vcardLines (AdvancedCardGenerator.generate_advanced_qr_vcard
        { name := "Jo Ann", email := "jo@x.io" })).getLast? = some "END:VCARD".data ∧
    vcardHasEntry (vcardLines (AdvancedCardGenerator.generate_advanced_qr_vcard
        { name := "Jo Ann", email := "jo@x.io" })) "FN" "Jo Ann" ∧
    vcardHasEntry (vcardLines (AdvancedCardGenerator.generate_advanced_qr_vcard
        { name := "Jo Ann", email := "jo@x.io" })) "ORG" "" ∧
    vcardHasEntry (vcardLines (AdvancedCardGenerator.generate_advanced_qr_vcard
        { name := "Jo Ann", email := "jo@x.io" })) "TITLE" "" ∧
    vcardHasEntry (vcardLines (AdvancedCardGenerator.generate_advanced_qr_vcard
        { name := "Jo Ann", email := "jo@x.io" })) "EMAIL" "jo@x.io" ∧
    vcardHasEntry (vcardLines (AdvancedCardGenerator.generate_advanced_qr_vcard
        { name := "Jo Ann", email := "jo@x.io" })) "TEL" "" ∧
    vcardHasEntry (vcardLines (AdvancedCardGenerator.generate_advanced_qr_vcard
        { name := "Jo Ann", email := "jo@x.io" })) "URL" "" :=
  claim6_qr_vcard_entries { name := "Jo Ann", email := "jo@x.io" }
    (by refine ⟨?_, ?_, ?_, ?_, ?_, ?_, ?_, ?_⟩ <;> decide)
